import Mathlib

/-!
Shallow embedding of the process/port detection pipeline of
src/unixProcessDetector.ts: the unix and windows platform strategies
(parseProcessInfo, parseListeningPorts) and the retrying orchestration of
ProcessPortDetector (detectProcessInfo, findWorkingPort,
testPortConnectivity, getProcessListeningPorts).

Strings are modelled as lists of characters.  The JavaScript regular
expressions used by the source are compiled by hand into executable
matchers with leftmost-match semantics: in every pattern below the
character classes on the two sides of a greedy quantifier are disjoint,
so greedy matching with backtracking coincides with the deterministic
maximal-run semantics implemented here.
-/

/-- ECMAScript WhiteSpace and LineTerminator characters: the set stripped
by String.prototype.trim and matched by the regex class backslash-s. -/
def isJsWs (c : Char) : Bool :=
  decide (c.toNat = 9 ∨ c.toNat = 10 ∨ c.toNat = 11 ∨ c.toNat = 12 ∨ c.toNat = 13 ∨
    c.toNat = 32 ∨ c.toNat = 0xa0 ∨ c.toNat = 0x1680 ∨
    (0x2000 ≤ c.toNat ∧ c.toNat ≤ 0x200a) ∨ c.toNat = 0x2028 ∨ c.toNat = 0x2029 ∨
    c.toNat = 0x202f ∨ c.toNat = 0x205f ∨ c.toNat = 0x3000 ∨ c.toNat = 0xfeff)

/-- ECMAScript LineTerminator characters, which the regex dot does not match. -/
def isLineTerm (c : Char) : Bool :=
  decide (c.toNat = 10 ∨ c.toNat = 13 ∨ c.toNat = 0x2028 ∨ c.toNat = 0x2029)

/-- Characters of the regex class with equals sign and backslash-s, used as
separator after the two command-line flags. -/
def isEqOrWs (c : Char) : Bool := c = '=' || isJsWs c

/-- Characters of the case-insensitive regex class a-f 0-9 dash that makes up
a CSRF token. -/
def isTokenChar (c : Char) : Bool :=
  decide (('a' ≤ c ∧ c ≤ 'f') ∨ ('A' ≤ c ∧ c ≤ 'F') ∨ ('0' ≤ c ∧ c ≤ '9') ∨ c = '-')

/-- ASCII lowercasing, the canonicalization relevant to the sole
case-insensitive pattern (whose literal part is ASCII). -/
def lowerAscii (c : Char) : Char :=
  if 'A' ≤ c ∧ c ≤ 'Z' then Char.ofNat (c.toNat + 32) else c

/-- String.prototype.trim: drop leading and trailing whitespace. -/
def jsTrim (l : List Char) : List Char :=
  ((l.dropWhile isJsWs).reverse.dropWhile isJsWs).reverse

/-- String.prototype.split with separator a newline character. -/
def splitOnNl : List Char → List (List Char)
  | [] => [[]]
  | c :: cs =>
    if c = '\n' then [] :: splitOnNl cs
    else
      match splitOnNl cs with
      | [] => [[c]]
      | g :: gs => (c :: g) :: gs

/-- Maximal runs of non-whitespace characters, accumulating the current
run in reverse. -/
def wordsAux (cur : List Char) : List Char → List (List Char)
  | [] => if cur = [] then [] else [cur.reverse]
  | c :: cs =>
    if isJsWs c then
      if cur = [] then wordsAux [] cs else cur.reverse :: wordsAux [] cs
    else wordsAux (c :: cur) cs

/-- Maximal runs of non-whitespace characters. -/
def words (l : List Char) : List (List Char) :=
  wordsAux [] l

/-- String.prototype.split on the regex of one-or-more whitespace.  The
source only applies it to trimmed input, where it returns the maximal
non-whitespace runs, except that the empty string yields one empty field. -/
def jsSplitWs (l : List Char) : List (List Char) :=
  if l = [] then [[]] else words l

/-- Value of a nonempty string of decimal digits. -/
def digitsToNat (ds : List Char) : Nat :=
  ds.foldl (fun n c => n * 10 + (c.toNat - 48)) 0

/-- Leading decimal digits of a string, if any. -/
def leadingDigits (l : List Char) : Option Nat :=
  let ds := l.takeWhile Char.isDigit
  if ds = [] then none else some (digitsToNat ds)

/-- JavaScript parseInt with radix 10: skip leading whitespace, read an
optional sign and then the maximal run of decimal digits; NaN (here: none)
when no digit is found. -/
def jsParseInt (l : List Char) : Option Int :=
  match l.dropWhile isJsWs with
  | [] => none
  | c :: r =>
    if c = '-' then (leadingDigits r).map (fun n => -(n : Int))
    else if c = '+' then (leadingDigits r).map (fun n => (n : Int))
    else (leadingDigits (c :: r)).map (fun n => (n : Int))

/-- Match a literal pattern at the head of the input, returning the rest. -/
def dropLit : List Char → List Char → Option (List Char)
  | [], l => some l
  | _ :: _, [] => none
  | p :: ps, c :: cs => if c = p then dropLit ps cs else none

/-- Match an ASCII literal pattern (given in lowercase) at the head of the
input, ignoring case, returning the rest. -/
def dropLitCI : List Char → List Char → Option (List Char)
  | [], l => some l
  | _ :: _, [] => none
  | p :: ps, c :: cs => if lowerAscii c = p then dropLitCI ps cs else none

/-- Leftmost-match driver: try the single-position matcher at each start
position from left to right, like an unanchored JavaScript regex. -/
def scanFirst (f : List Char → Option α) : List Char → Option α
  | [] => f []
  | c :: cs =>
    match f (c :: cs) with
    | some x => some x
    | none => scanFirst f cs

/-- Does the pattern occur anywhere in the input (as a contiguous run)? -/
def containsPat (pat : List Char) : List Char → Bool
  | [] => (dropLit pat []).isSome
  | c :: cs => (dropLit pat (c :: cs)).isSome || containsPat pat cs

/-- One-position matcher for the port-flag regex
dash dash extension_server_port, class of equals or whitespace repeated,
then captured digits. -/
def matchExtPortHere (l : List Char) : Option Nat :=
  match dropLit ("--extension_server_port".data) l with
  | none => none
  | some r =>
    if r.takeWhile isEqOrWs = [] then none
    else leadingDigits (r.dropWhile isEqOrWs)

/-- Leftmost match of the port-flag regex over the whole output. -/
def matchExtPort (l : List Char) : Option Nat :=
  scanFirst matchExtPortHere l

/-- One-position matcher for the case-insensitive token regex
dash dash csrf_token, class of equals or whitespace repeated, then a
captured run of hex-or-dash characters (returned in original case). -/
def matchCsrfTokenHere (l : List Char) : Option (List Char) :=
  match dropLitCI ("--csrf_token".data) l with
  | none => none
  | some r =>
    if r.takeWhile isEqOrWs = [] then none
    else
      let ds := (r.dropWhile isEqOrWs).takeWhile isTokenChar
      if ds = [] then none else some ds

/-- Leftmost match of the token regex over the whole output. -/
def matchCsrfToken (l : List Char) : Option (List Char) :=
  scanFirst matchCsrfTokenHere l

/-- One-position matcher for the windows pid regex: literal ProcessId equals
sign, then captured digits. -/
def matchProcessIdHere (l : List Char) : Option Nat :=
  match dropLit ("ProcessId=".data) l with
  | none => none
  | some r => leadingDigits r

/-- Leftmost match of the windows pid regex over the whole output. -/
def matchProcessId (l : List Char) : Option Nat :=
  scanFirst matchProcessIdHere l

/-- The parsed process information of the source: pid, declared port
(0 when the flag is absent) and CSRF token. -/
structure ProcessInfo where
  pid : Int
  extensionPort : Nat
  csrfToken : String
deriving DecidableEq, Repr

/-- Pid extraction of the unix variant: second whitespace-separated column
of the first output line, read with parseInt. -/
def unixPid (l : List Char) : Option Int :=
  match splitOnNl (jsTrim l) with
  | [] => none
  | firstLine :: _ =>
    match jsSplitWs (jsTrim firstLine) with
    | _ :: c1 :: _ => jsParseInt c1
    | _ => none

/-- UnixProcessDetector.parseProcessInfo: reject blank output, extract the
pid from the second column of the first line, require a CSRF token match,
and default the declared port to 0. -/
def unixParseProcessInfo (s : String) : Option ProcessInfo :=
  let l := s.data
  if jsTrim l = [] then none
  else
    match unixPid l with
    | none => none
    | some pid =>
      match matchCsrfToken l with
      | none => none
      | some tok => some ⟨pid, (matchExtPort l).getD 0, String.mk tok⟩

/-- WindowsProcessDetector.parseProcessInfo: require a ProcessId field and a
CSRF token match, and default the declared port to 0. -/
def windowsParseProcessInfo (s : String) : Option ProcessInfo :=
  let l := s.data
  match matchProcessId l with
  | none => none
  | some pid =>
    match matchCsrfToken l with
    | none => none
    | some tok => some ⟨(pid : Int), (matchExtPort l).getD 0, String.mk tok⟩

/-- One-position matcher for the lsof line regex: loopback address and
colon, captured digits, then the literal parenthesized LISTEN somewhere
later on the line (the dot of the regex cannot cross a line terminator). -/
def lsofHere (l : List Char) : Option Nat :=
  match dropLit ("127.0.0.1:".data) l with
  | none => none
  | some r =>
    let ds := r.takeWhile Char.isDigit
    if ds = [] then none
    else if containsPat ("(LISTEN)".data)
        ((r.dropWhile Char.isDigit).takeWhile (fun c => !isLineTerm c)) then
      some (digitsToNat ds)
    else none

/-- One-position matcher for the netstat line regex: like the lsof one but
with a bare LISTEN literal. -/
def netstatHere (l : List Char) : Option Nat :=
  match dropLit ("127.0.0.1:".data) l with
  | none => none
  | some r =>
    let ds := r.takeWhile Char.isDigit
    if ds = [] then none
    else if containsPat ("LISTEN".data)
        ((r.dropWhile Char.isDigit).takeWhile (fun c => !isLineTerm c)) then
      some (digitsToNat ds)
    else none

/-- One-position matcher for the localhost alternation regex: at each
position the left alternative (parenthesized LISTEN) is tried before the
right one (bare LISTEN); both capture the digits after the colon. -/
def localhostHere (l : List Char) : Option Nat :=
  match dropLit ("localhost:".data) l with
  | none => none
  | some r =>
    let ds := r.takeWhile Char.isDigit
    if ds = [] then none
    else
      let rest := (r.dropWhile Char.isDigit).takeWhile (fun c => !isLineTerm c)
      if containsPat ("(LISTEN)".data) rest then some (digitsToNat ds)
      else if containsPat ("LISTEN".data) rest then some (digitsToNat ds)
      else none

/-- Port extracted from one line of unix port-list output: the source tries
the lsof format, then the netstat format, then the localhost format. -/
def unixLinePort (line : List Char) : Option Nat :=
  match scanFirst lsofHere line with
  | some p => some p
  | none =>
    match scanFirst netstatHere line with
    | some p => some p
    | none => scanFirst localhostHere line

/-- Accumulate a port as the source loop does: push it unless present. -/
def pushUnique (acc : List Nat) (p : Nat) : List Nat :=
  if p ∈ acc then acc else acc ++ [p]

/-- Deduplicate in first-seen order (the includes check of the source) and
then sort ascending (the numeric-comparator sort of the source). -/
def dedupSort (raw : List Nat) : List Nat :=
  List.insertionSort (· ≤ ·) (raw.foldl pushUnique [])

/-- UnixProcessDetector.parseListeningPorts: blank output yields no ports;
otherwise each line is matched against the three formats and the distinct
ports are returned sorted ascending. -/
def unixParseListeningPorts (s : String) : List Nat :=
  let l := s.data
  if jsTrim l = [] then []
  else dedupSort ((splitOnNl (jsTrim l)).filterMap unixLinePort)

/-- One-position matcher for the windows netstat regex: loopback address and
colon, captured digits, whitespace, the wildcard local peer 0.0.0.0:0,
whitespace, the LISTENING literal.  Returns the capture and the rest of the
input after the match (the global-regex lastIndex). -/
def winHere (l : List Char) : Option (Nat × List Char) :=
  match dropLit ("127.0.0.1:".data) l with
  | none => none
  | some r =>
    let ds := r.takeWhile Char.isDigit
    let r1 := r.dropWhile Char.isDigit
    if ds = [] then none
    else if r1.takeWhile isJsWs = [] then none
    else
      match dropLit ("0.0.0.0:0".data) (r1.dropWhile isJsWs) with
      | none => none
      | some r2 =>
        if r2.takeWhile isJsWs = [] then none
        else
          match dropLit ("LISTENING".data) (r2.dropWhile isJsWs) with
          | none => none
          | some r3 => some (digitsToNat ds, r3)

/-- The global-regex exec loop of the windows variant: scan left to right
and, after a match, continue from its end (the lastIndex update of exec).
The jump to the end of a match is realized structurally by skipping the
remaining consumed characters one at a time. -/
def winScanAux : Nat → List Char → List Nat
  | _ + 1, [] => []
  | skip + 1, _ :: cs => winScanAux skip cs
  | 0, [] => []
  | 0, c :: cs =>
    match winHere (c :: cs) with
    | some pr => pr.1 :: winScanAux ((c :: cs).length - pr.2.length - 1) cs
    | none => winScanAux 0 cs

/-- All captures of the windows netstat regex over the whole output, in
match order. -/
def winScan (l : List Char) : List Nat :=
  winScanAux 0 l

/-- WindowsProcessDetector.parseListeningPorts: all matches of the single
netstat regex over the whole output, deduplicated and sorted ascending. -/
def windowsParseListeningPorts (s : String) : List Nat :=
  dedupSort (winScan s.data)

/-- The detection result of the source (AntigravityProcessInfo): declared
port, verified HTTPS port, CSRF token. -/
structure AntigravityProcessInfo where
  extensionPort : Nat
  connectPort : Nat
  csrfToken : String
deriving DecidableEq, Repr

/-- The platform strategy capabilities used by the orchestration: the two
text parsers (command building and diagnostics do not influence the data
flow modelled here). -/
structure Strategy where
  parseProcessInfo : String → Option ProcessInfo
  parseListeningPorts : String → List Nat

/-- The unix strategy instance. -/
def unixStrategy : Strategy :=
  ⟨unixParseProcessInfo, unixParseListeningPorts⟩

/-- The windows strategy instance. -/
def windowsStrategy : Strategy :=
  ⟨windowsParseProcessInfo, windowsParseListeningPorts⟩

/-- What the external world feeds one attempt: the outcome of the
process-list command (error for a timeout or nonzero exit, or its stdout),
the outcome of the port-list command, and the HTTPS probe responses
(none for a connection error or timeout, some status otherwise). -/
structure AttemptEnv where
  procCmd : Except String String
  portCmd : Except String String
  probe : Nat → Option Nat

/-- ProcessPortDetector.testPortConnectivity: a probe succeeds exactly when
it yields a response with status code 200. -/
def testPortConnectivity (probe : Nat → Option Nat) (port : Nat) : Bool :=
  probe port == some 200

/-- ProcessPortDetector.findWorkingPort together with the list of ports
actually contacted: probe sequentially, stop at the first success. -/
def findWorkingPortTr (probe : Nat → Option Nat) : List Nat → Option Nat × List Nat
  | [] => (none, [])
  | p :: ps =>
    if testPortConnectivity probe p then (some p, [p])
    else
      let R := findWorkingPortTr probe ps
      (R.1, p :: R.2)

/-- ProcessPortDetector.findWorkingPort (result only). -/
def findWorkingPort (probe : Nat → Option Nat) (ports : List Nat) : Option Nat :=
  (findWorkingPortTr probe ports).1

/-- ProcessPortDetector.getProcessListeningPorts: parse the port-list
stdout, but catch any command failure and yield the empty port list. -/
def getProcessListeningPorts (st : Strategy) (portCmd : Except String String) : List Nat :=
  match portCmd with
  | Except.ok out => st.parseListeningPorts out
  | Except.error _ => []

/-- One attempt of the detectProcessInfo loop: run and parse the
process-list command, fetch the listening ports, fail on an empty port
list, then probe.  Returns the attempt outcome and the ports contacted.
The source guards the probe result with a JavaScript falsiness test, so
both a null result and a working port of 0 count as attempt failure. -/
def runAttempt (st : Strategy) (env : AttemptEnv) :
    Option AntigravityProcessInfo × List Nat :=
  match env.procCmd with
  | Except.error _ => (none, [])
  | Except.ok out =>
    match st.parseProcessInfo out with
    | none => (none, [])
    | some info =>
      let ports := getProcessListeningPorts st env.portCmd
      if ports = [] then (none, [])
      else
        let R := findWorkingPortTr env.probe ports
        match R.1 with
        | none => (none, R.2)
        | some p =>
          if p = 0 then (none, R.2)
          else (some ⟨info.extensionPort, p, info.csrfToken⟩, R.2)

/-- Observable trace of a detection run: attempts started, inter-attempt
delays slept (each entry is one setTimeout duration), ports probed. -/
structure DetectTrace where
  attempts : Nat
  delays : List Nat
  probes : List Nat
deriving DecidableEq, Repr

/-- The retry loop of ProcessPortDetector.detectProcessInfo from a given
attempt number with a given number of attempts remaining: on success
return immediately; on failure sleep retryDelay and retry while attempts
remain (no sleep after the final attempt), else report absence. -/
def detectFrom (st : Strategy) (env : Nat → AttemptEnv) (d : Nat) (a : Nat) :
    Nat → Option AntigravityProcessInfo × DetectTrace
  | 0 => (none, ⟨0, [], []⟩)
  | m + 1 =>
    let A := runAttempt st (env a)
    if A.1.isSome then (A.1, ⟨1, [], A.2⟩)
    else if m = 0 then (none, ⟨1, [], A.2⟩)
    else
      let R := detectFrom st env d (a + 1) m
      (R.1, ⟨R.2.attempts + 1, d :: R.2.delays, A.2 ++ R.2.probes⟩)

/-- ProcessPortDetector.detectProcessInfo: attempts 1 to maxRetries. -/
def detectProcessInfo (st : Strategy) (env : Nat → AttemptEnv)
    (maxRetries retryDelay : Nat) : Option AntigravityProcessInfo × DetectTrace :=
  detectFrom st env retryDelay 1 maxRetries

-- Sanity checks on concrete source-shaped inputs (spec section 8).
example :
    unixParseProcessInfo
      "user 4412 0.0 0.1 ... /opt/x/language_server_linux --extension_server_port=2873 --csrf_token=ab12cd34-ef56"
      = some ⟨4412, 2873, "ab12cd34-ef56"⟩ := by decide

example : unixParseProcessInfo "   \n  " = none := by decide

example : windowsParseProcessInfo "ProcessId=77 CommandLine= --csrf_token=ab" = some ⟨77, 0, "ab"⟩ := by decide

example :
    unixParseListeningPorts
      "TCP 127.0.0.1:9001 (LISTEN)\nTCP 127.0.0.1:8000 (LISTEN)\nTCP 127.0.0.1:8000 (LISTEN)"
      = [8000, 9001] := by decide

example :
    windowsParseListeningPorts
      "  TCP    127.0.0.1:2873         0.0.0.0:0              LISTENING       4412"
      = [2873] := by decide

example :
    windowsParseListeningPorts "TCP 127.0.0.1:8000 (LISTEN)" = [] := by decide

example :
    windowsParseListeningPorts
      "TCP 127.0.0.1:9000 0.0.0.0:0 LISTENING 4412\nTCP 127.0.0.1:2873 0.0.0.0:0 LISTENING 4412"
      = [2873, 9000] := by decide

/-- An attempt environment whose process-list output parses to nothing. -/
def badAttemptEnv : AttemptEnv :=
  ⟨Except.ok "nonsense", Except.ok "", fun _ => none⟩

/-- An attempt environment that fully succeeds under the unix strategy:
credentials parse, one listening port, and its probe answers 200. -/
def goodAttemptEnv : AttemptEnv :=
  ⟨Except.ok "user 4412 0.0 0.1 /opt/x/language_server_linux --extension_server_port=2873 --csrf_token=ab12cd34-ef56",
   Except.ok "language_ 4412 user 10u IPv4 0 0t0 TCP 127.0.0.1:8000 (LISTEN)",
   fun p => if p = 8000 then some 200 else none⟩

/-- Attempt 1 fails to parse, attempt 2 fully succeeds. -/
def retryEnv : Nat → AttemptEnv :=
  fun k => if k = 2 then goodAttemptEnv else badAttemptEnv

/-- An attempt environment whose probe loop finds a working port of 0: the
falsy-zero guard of the source makes this attempt fail as well. -/
def zeroPortEnv : AttemptEnv :=
  ⟨Except.ok "user 4412 0.0 x --csrf_token=ab",
   Except.ok "TCP 127.0.0.1:0 (LISTEN)",
   fun _ => some 200⟩

example : (runAttempt unixStrategy badAttemptEnv).1 = none := by decide

example : runAttempt unixStrategy zeroPortEnv = (none, [0]) := by decide

example : (detectProcessInfo unixStrategy (fun _ => zeroPortEnv) 2 7).1 = none := by decide

example :
    runAttempt unixStrategy goodAttemptEnv
      = (some ⟨2873, 8000, "ab12cd34-ef56"⟩, [8000]) := by decide

example :
    (detectProcessInfo unixStrategy retryEnv 3 2000).1
      = some ⟨2873, 8000, "ab12cd34-ef56"⟩ := by decide

example : (detectProcessInfo unixStrategy retryEnv 3 2000).2.attempts = 2 := by decide

example :
    (detectProcessInfo unixStrategy (fun _ => badAttemptEnv) 3 2000).2.delays
      = [2000, 2000] := by decide

/-! Helper lemmas about the probe loop. -/

theorem findWorkingPortTr_fst (probe : Nat → Option Nat) (ports : List Nat) :
    (findWorkingPortTr probe ports).1 = ports.find? (testPortConnectivity probe) := by
  induction ports with
  | nil => rfl
  | cons p ps ih =>
    by_cases h : testPortConnectivity probe p
    · simp [findWorkingPortTr, h, List.find?_cons_of_pos _ h]
    · simp [findWorkingPortTr, h, List.find?_cons_of_neg _ (by simpa using h), ih]

theorem findWorkingPortTr_probed (probe : Nat → Option Nat) (ports : List Nat) :
    ∃ rest, ports = (findWorkingPortTr probe ports).2 ++ rest := by
  induction ports with
  | nil => exact ⟨[], rfl⟩
  | cons p ps ih =>
    by_cases h : testPortConnectivity probe p
    · exact ⟨ps, by simp [findWorkingPortTr, h]⟩
    · obtain ⟨rest, hrest⟩ := ih
      exact ⟨rest, by simp [findWorkingPortTr, h]; exact hrest⟩

theorem findWorkingPortTr_none (probe : Nat → Option Nat) (ports : List Nat)
    (h : (findWorkingPortTr probe ports).1 = none) :
    (findWorkingPortTr probe ports).2 = ports := by
  induction ports with
  | nil => rfl
  | cons p ps ih =>
    by_cases hp : testPortConnectivity probe p
    · simp [findWorkingPortTr, hp] at h
    · simp [findWorkingPortTr, hp] at h ⊢
      exact ih h

theorem findWorkingPortTr_some (probe : Nat → Option Nat) (ports : List Nat) :
    ∀ p, (findWorkingPortTr probe ports).1 = some p →
      (findWorkingPortTr probe ports).2
        = ports.takeWhile (fun q => !testPortConnectivity probe q) ++ [p] := by
  induction ports with
  | nil => intro p h; simp [findWorkingPortTr] at h
  | cons q ps ih =>
    intro p h
    by_cases hq : testPortConnectivity probe q
    · simp [findWorkingPortTr, hq] at h ⊢
      subst h
      simp [List.takeWhile_cons, hq]
    · simp [findWorkingPortTr, hq] at h ⊢
      exact ih p h

/-- Claim C2: findWorkingPort probes the candidates sequentially in the
given order; a probe succeeds exactly when the response status is 200; the
contacted ports form a prefix of the candidate list that stops at the
first success (candidates after it are never contacted); and when no
candidate succeeds the result is none after contacting every candidate. -/
theorem c2_findWorkingPort_first_success (probe : Nat → Option Nat) (ports : List Nat) :
    (∀ p, testPortConnectivity probe p = true ↔ probe p = some 200) ∧
    findWorkingPort probe ports = ports.find? (testPortConnectivity probe) ∧
    (∃ rest, ports = (findWorkingPortTr probe ports).2 ++ rest) ∧
    ((∀ p ∈ ports, testPortConnectivity probe p = false) →
      findWorkingPort probe ports = none ∧ (findWorkingPortTr probe ports).2 = ports) ∧
    (∀ p, (findWorkingPortTr probe ports).1 = some p →
      testPortConnectivity probe p = true ∧
      (findWorkingPortTr probe ports).2
        = ports.takeWhile (fun q => !testPortConnectivity probe q) ++ [p]) := by
  refine ⟨fun p => by simp [testPortConnectivity], findWorkingPortTr_fst probe ports,
    findWorkingPortTr_probed probe ports, ?_, ?_⟩
  · intro hall
    have hnone : findWorkingPort probe ports = none := by
      rw [findWorkingPort, findWorkingPortTr_fst]
      exact List.find?_eq_none.mpr (fun x hx => by simp [hall x hx])
    exact ⟨hnone, findWorkingPortTr_none probe ports hnone⟩
  · intro p hp
    constructor
    · have := findWorkingPortTr_fst probe ports
      rw [hp] at this
      exact List.find?_some this.symm
    · exact findWorkingPortTr_some probe ports p hp

/-- Witness for C2 at the spec example: candidates 8000 and 9001 where only
9001 answers 200. -/
theorem c2_findWorkingPort_first_success_witness :
    (∀ p, testPortConnectivity (fun q => if q = 9001 then some 200 else none) p = true ↔
      (if p = 9001 then some 200 else none) = some 200) ∧
    findWorkingPort (fun q => if q = 9001 then some 200 else none) [8000, 9001]
      = [8000, 9001].find?
          (testPortConnectivity (fun q => if q = 9001 then some 200 else none)) ∧
    (∃ rest, [8000, 9001]
      = (findWorkingPortTr (fun q => if q = 9001 then some 200 else none) [8000, 9001]).2
          ++ rest) ∧
    ((∀ p ∈ [8000, 9001],
        testPortConnectivity (fun q => if q = 9001 then some 200 else none) p = false) →
      findWorkingPort (fun q => if q = 9001 then some 200 else none) [8000, 9001] = none ∧
      (findWorkingPortTr (fun q => if q = 9001 then some 200 else none) [8000, 9001]).2
        = [8000, 9001]) ∧
    (∀ p, (findWorkingPortTr (fun q => if q = 9001 then some 200 else none) [8000, 9001]).1
        = some p →
      testPortConnectivity (fun q => if q = 9001 then some 200 else none) p = true ∧
      (findWorkingPortTr (fun q => if q = 9001 then some 200 else none) [8000, 9001]).2
        = [8000, 9001].takeWhile
            (fun q => !testPortConnectivity (fun q2 => if q2 = 9001 then some 200 else none) q)
          ++ [p]) :=
  c2_findWorkingPort_first_success (fun q => if q = 9001 then some 200 else none) [8000, 9001]

/-! Helper lemmas about the retry loop. -/

theorem detectFrom_succ (st : Strategy) (env : Nat → AttemptEnv) (d a m : Nat) :
    detectFrom st env d a (m + 1) =
      if (runAttempt st (env a)).1.isSome then
        ((runAttempt st (env a)).1, ⟨1, [], (runAttempt st (env a)).2⟩)
      else if m = 0 then (none, ⟨1, [], (runAttempt st (env a)).2⟩)
      else
        ((detectFrom st env d (a + 1) m).1,
          ⟨(detectFrom st env d (a + 1) m).2.attempts + 1,
           d :: (detectFrom st env d (a + 1) m).2.delays,
           (runAttempt st (env a)).2 ++ (detectFrom st env d (a + 1) m).2.probes⟩) := rfl

theorem detectFrom_attempts_le (st : Strategy) (env : Nat → AttemptEnv) (d : Nat) :
    ∀ m a, (detectFrom st env d a m).2.attempts ≤ m := by
  intro m
  induction m with
  | zero => intro a; simp [detectFrom]
  | succ m ih =>
    intro a
    rw [detectFrom_succ]
    cases hA : (runAttempt st (env a)).1 with
    | some c => simp
    | none =>
      cases m with
      | zero => simp
      | succ m2 =>
        have h2 := ih (a + 1)
        simp
        omega

theorem detectFrom_success (st : Strategy) (env : Nat → AttemptEnv) (d : Nat) :
    ∀ (m a j : Nat) (c : AntigravityProcessInfo),
      a ≤ j → j < a + m →
      (∀ i, a ≤ i → i < j → (runAttempt st (env i)).1 = none) →
      (runAttempt st (env j)).1 = some c →
      (detectFrom st env d a m).1 = some c ∧
      (detectFrom st env d a m).2.attempts = j + 1 - a := by
  intro m
  induction m with
  | zero => intro a j c h1 h2 _ _; omega
  | succ m ih =>
    intro a j c h1 h2 hfail hsucc
    rw [detectFrom_succ]
    by_cases hj : j = a
    · subst hj
      simp [hsucc]
    · have haj : a < j := lt_of_le_of_ne h1 (Ne.symm hj)
      have hfa : (runAttempt st (env a)).1 = none := hfail a le_rfl haj
      cases m with
      | zero => omega
      | succ m2 =>
        have IH := ih (a + 1) j c (by omega) (by omega)
          (fun i hi1 hi2 => hfail i (by omega) hi2) hsucc
        simp [hfa]
        exact ⟨IH.1, by have := IH.2; omega⟩

theorem detectFrom_allFail (st : Strategy) (env : Nat → AttemptEnv) (d : Nat) :
    ∀ (m a : Nat), (∀ i, a ≤ i → i < a + m → (runAttempt st (env i)).1 = none) →
      (detectFrom st env d a m).1 = none ∧
      (detectFrom st env d a m).2.attempts = m ∧
      (detectFrom st env d a m).2.delays = List.replicate (m - 1) d := by
  intro m
  induction m with
  | zero => intro a _; simp [detectFrom]
  | succ m ih =>
    intro a h
    have hfa : (runAttempt st (env a)).1 = none := h a le_rfl (by omega)
    rw [detectFrom_succ]
    cases m with
    | zero => simp [hfa]
    | succ m2 =>
      have IH := ih (a + 1) (fun i h1 h2 => h i (by omega) (by omega))
      simp [hfa]
      refine ⟨IH.1, ?_, ?_⟩
      · have := IH.2.1; omega
      · rw [IH.2.2]
        have hr : m2 + 1 - 1 = m2 := by omega
        rw [hr]
        simp [List.replicate]

/-- Claim C1: for maxRetries at least 1, detectProcessInfo starts at most
maxRetries attempts; when the attempts before j all fail and attempt j
fully succeeds, it returns the credentials of attempt j having started
exactly j attempts (so no further attempt or probe is started); and when
every attempt fails it returns an absent result. -/
theorem c1_detect_retry_bound (st : Strategy) (env : Nat → AttemptEnv)
    (n d : Nat) (hn : 1 ≤ n) :
    (detectProcessInfo st env n d).2.attempts ≤ n ∧
    (∀ j c, 1 ≤ j → j ≤ n →
      (∀ i, 1 ≤ i → i < j → (runAttempt st (env i)).1 = none) →
      (runAttempt st (env j)).1 = some c →
      (detectProcessInfo st env n d).1 = some c ∧
      (detectProcessInfo st env n d).2.attempts = j) ∧
    ((∀ i, 1 ≤ i → i ≤ n → (runAttempt st (env i)).1 = none) →
      (detectProcessInfo st env n d).1 = none) := by
  have hn2 : 1 ≤ n := hn
  refine ⟨detectFrom_attempts_le st env d n 1, ?_, ?_⟩
  · intro j c hj1 hjn hfail hsucc
    have H := detectFrom_success st env d n 1 j c hj1 (by omega) hfail hsucc
    exact ⟨H.1, by have := H.2; unfold detectProcessInfo; omega⟩
  · intro hfail
    exact (detectFrom_allFail st env d n 1 (fun i h1 h2 => hfail i h1 (by omega))).1

/-- Witness for C1: with maxRetries 3, a parse failure on attempt 1 and a
full success on attempt 2 return the attempt-2 credentials after exactly 2
attempts. -/
theorem c1_detect_retry_bound_witness :
    (detectProcessInfo unixStrategy retryEnv 3 2000).2.attempts ≤ 3 ∧
    (detectProcessInfo unixStrategy retryEnv 3 2000).1
      = some ⟨2873, 8000, "ab12cd34-ef56"⟩ ∧
    (detectProcessInfo unixStrategy retryEnv 3 2000).2.attempts = 2 := by
  have H := c1_detect_retry_bound unixStrategy retryEnv 3 2000 (by decide)
  have H2 := H.2.1 2 ⟨2873, 8000, "ab12cd34-ef56"⟩ (by decide) (by decide)
    (fun i h1 h2 => by
      have hi : i = 1 := by omega
      subst hi
      decide)
    (by decide)
  exact ⟨H.1, H2.1, H2.2⟩

/-- Claim C9: when every attempt fails, the result is absent after exactly
maxRetries attempts, with exactly maxRetries minus 1 inter-attempt delays,
each of the configured duration. -/
theorem c9_all_attempts_fail_delays (st : Strategy) (env : Nat → AttemptEnv)
    (n d : Nat) (hn : 1 ≤ n)
    (hfail : ∀ i, 1 ≤ i → i ≤ n → (runAttempt st (env i)).1 = none) :
    (detectProcessInfo st env n d).1 = none ∧
    (detectProcessInfo st env n d).2.attempts = n ∧
    (detectProcessInfo st env n d).2.delays = List.replicate (n - 1) d := by
  have hn2 : 1 ≤ n := hn
  exact detectFrom_allFail st env d n 1 (fun i h1 h2 => hfail i h1 (by omega))

/-- Witness for C9: three attempts that all fail through the falsy working
port 0 give an absent result after 3 attempts, with delays of 2000
milliseconds after the first two. -/
theorem c9_all_attempts_fail_delays_witness :
    (detectProcessInfo unixStrategy (fun _ => zeroPortEnv) 3 2000).1 = none ∧
    (detectProcessInfo unixStrategy (fun _ => zeroPortEnv) 3 2000).2.attempts = 3 ∧
    (detectProcessInfo unixStrategy (fun _ => zeroPortEnv) 3 2000).2.delays
      = List.replicate (3 - 1) 2000 :=
  c9_all_attempts_fail_delays unixStrategy (fun _ => zeroPortEnv) 3 2000 (by decide)
    (fun i h1 h2 => (by decide : (runAttempt unixStrategy zeroPortEnv).1 = none))

/-! Helper lemmas for the port-list failure path. -/

theorem runAttempt_portFail_eq (st : Strategy) (pc : Except String String)
    (probe : Nat → Option Nat) (e out : String)
    (h : st.parseListeningPorts out = []) :
    runAttempt st ⟨pc, Except.error e, probe⟩ = runAttempt st ⟨pc, Except.ok out, probe⟩ := by
  cases pc with
  | error e2 => rfl
  | ok o =>
    cases hp : st.parseProcessInfo o with
    | none => simp [runAttempt, hp]
    | some info => simp [runAttempt, hp, getProcessListeningPorts, h]

theorem detectFrom_congr (st : Strategy) (env1 env2 : Nat → AttemptEnv) (d : Nat)
    (h : ∀ k, runAttempt st (env1 k) = runAttempt st (env2 k)) :
    ∀ m a, detectFrom st env1 d a m = detectFrom st env2 d a m := by
  intro m
  induction m with
  | zero => intro a; rfl
  | succ m ih =>
    intro a
    rw [detectFrom_succ, detectFrom_succ, h a]
    cases m with
    | zero => rfl
    | succ m2 => rw [ih (a + 1)]

/-- Claim C8: a failing port-list command yields the empty port list
instead of an error, and a detection run in which every port-list command
fails is indistinguishable from one in which those commands succeed with
output parsing to zero candidates; no error reaches the caller of
detectProcessInfo. -/
theorem c8_port_list_failure_degrades (st : Strategy)
    (proc : Nat → Except String String) (err out : Nat → String)
    (probe : Nat → Nat → Option Nat) (n d : Nat) (e : String)
    (h : ∀ k, st.parseListeningPorts (out k) = []) :
    getProcessListeningPorts st (Except.error e) = [] ∧
    detectProcessInfo st (fun k => ⟨proc k, Except.error (err k), probe k⟩) n d
      = detectProcessInfo st (fun k => ⟨proc k, Except.ok (out k), probe k⟩) n d := by
  refine ⟨rfl, ?_⟩
  exact detectFrom_congr st _ _ d
    (fun k => runAttempt_portFail_eq st (proc k) (probe k) (err k) (out k) (h k)) n 1

/-- Witness for C8 under the unix strategy with empty port-list output. -/
theorem c8_port_list_failure_degrades_witness :
    getProcessListeningPorts unixStrategy (Except.error "boom") = [] ∧
    detectProcessInfo unixStrategy
        (fun _ => ⟨Except.ok "x", Except.error "boom", fun _ => none⟩) 2 5
      = detectProcessInfo unixStrategy
        (fun _ => ⟨Except.ok "x", Except.ok "", fun _ => none⟩) 2 5 :=
  c8_port_list_failure_degrades unixStrategy (fun _ => Except.ok "x")
    (fun _ => "boom") (fun _ => "") (fun _ _ => none) 2 5 "boom"
    (fun _ => (by decide : unixStrategy.parseListeningPorts "" = []))

/-! Helper lemmas about the port-list parsers. -/

theorem pushUnique_nodup (acc : List Nat) (p : Nat) (h : acc.Nodup) :
    (pushUnique acc p).Nodup := by
  unfold pushUnique
  by_cases hp : p ∈ acc
  · simpa [hp] using h
  · simp [hp, List.nodup_append, h]

theorem foldl_pushUnique_nodup (raw : List Nat) :
    ∀ acc, acc.Nodup → (raw.foldl pushUnique acc).Nodup := by
  induction raw with
  | nil => intro acc h; simpa using h
  | cons x xs ih => intro acc h; exact ih _ (pushUnique_nodup acc x h)

theorem dedupSort_sorted (raw : List Nat) : List.Sorted (· ≤ ·) (dedupSort raw) :=
  List.sorted_insertionSort _ _

theorem dedupSort_nodup (raw : List Nat) : (dedupSort raw).Nodup :=
  (List.perm_insertionSort _ _).nodup_iff.mpr (foldl_pushUnique_nodup raw [] (by simp))

/-- Claim C3: on every input both parseListeningPorts variants return a
sequence of distinct ports sorted ascending, and return the empty sequence
rather than failing on empty input or on input without a recognized port
line. -/
theorem c3_parseListeningPorts_sorted_nodup_empty (s : String) :
    List.Sorted (· ≤ ·) (unixParseListeningPorts s) ∧
    (unixParseListeningPorts s).Nodup ∧
    List.Sorted (· ≤ ·) (windowsParseListeningPorts s) ∧
    (windowsParseListeningPorts s).Nodup ∧
    unixParseListeningPorts "" = [] ∧
    windowsParseListeningPorts "" = [] ∧
    ((∀ line ∈ splitOnNl (jsTrim s.data), unixLinePort line = none) →
      unixParseListeningPorts s = []) ∧
    (winScan s.data = [] → windowsParseListeningPorts s = []) := by
  refine ⟨?_, ?_, ?_, ?_, by decide, by decide, ?_, ?_⟩
  · simp only [unixParseListeningPorts]
    split
    · exact List.sorted_nil
    · exact dedupSort_sorted _
  · simp only [unixParseListeningPorts]
    split
    · exact List.nodup_nil
    · exact dedupSort_nodup _
  · exact dedupSort_sorted _
  · exact dedupSort_nodup _
  · intro hno
    simp only [unixParseListeningPorts]
    split
    · rfl
    · rw [List.filterMap_eq_nil_iff.mpr hno]
      rfl
  · intro h
    simp only [windowsParseListeningPorts]
    rw [h]
    rfl

/-- Witness for C3 at concrete inputs. -/
theorem c3_parseListeningPorts_sorted_nodup_empty_witness :
    List.Sorted (· ≤ ·) (unixParseListeningPorts "stray text") ∧
    (unixParseListeningPorts "stray text").Nodup ∧
    List.Sorted (· ≤ ·) (windowsParseListeningPorts "stray text") ∧
    (windowsParseListeningPorts "stray text").Nodup ∧
    unixParseListeningPorts "" = [] ∧
    windowsParseListeningPorts "" = [] ∧
    unixParseListeningPorts "stray text" = [] ∧
    windowsParseListeningPorts "stray text" = [] := by
  have H := c3_parseListeningPorts_sorted_nodup_empty "stray text"
  exact ⟨H.1, H.2.1, H.2.2.1, H.2.2.2.1, H.2.2.2.2.1, H.2.2.2.2.2.1,
    H.2.2.2.2.2.2.1 (by decide), H.2.2.2.2.2.2.2 (by decide)⟩

/-! Concrete port-list outputs for the layout claims. -/

/-- Mixed socket-lister output: 9001 first, 8000 twice. -/
def mixedLsofA : String :=
  "TCP 127.0.0.1:9001 (LISTEN)\nTCP 127.0.0.1:8000 (LISTEN)\nTCP 127.0.0.1:8000 (LISTEN)"

/-- Mixed socket-lister output: 8000 first, 9001 twice. -/
def mixedLsofB : String :=
  "TCP 127.0.0.1:8000 (LISTEN)\nTCP 127.0.0.1:9001 (LISTEN)\nTCP 127.0.0.1:9001 (LISTEN)"

/-- A linux network-statistics line (second unix layout). -/
def netstatLine : String :=
  "tcp 0 0 127.0.0.1:2873 0.0.0.0:* LISTEN 4412/language_server"

/-- A localhost-form socket-lister line (third unix layout). -/
def localhostLine : String :=
  "language_ 4412 user 10u IPv4 0 0t0 TCP localhost:7777 (LISTEN)"

/-- A windows netstat line, the single layout of the windows variant. -/
def winNetstatLine : String :=
  "  TCP    127.0.0.1:2873         0.0.0.0:0              LISTENING       4412"

/-- Claim C4 counterexample: the windows variant does not recognize the
socket-lister layout; on the mixed socket-lister output it yields the
empty sequence, not the two ports the claim requires of each variant. -/
theorem c4_windows_socket_lister_counterexample :
    windowsParseListeningPorts mixedLsofA = [] ∧
    ¬ windowsParseListeningPorts mixedLsofA = [8000, 9001] := by decide

/-- Claim C4 amended: the unix variant recognizes several layouts
(socket-lister, network-statistics, localhost form) and yields exactly
8000 and 9001, sorted and deduplicated, on the mixed socket-lister output
in either order; the windows variant recognizes only its network-statistics
layout, yielding 2873 there and nothing on the socket-lister output. -/
theorem c4_layouts_amended :
    unixParseListeningPorts mixedLsofA = [8000, 9001] ∧
    unixParseListeningPorts mixedLsofB = [8000, 9001] ∧
    unixParseListeningPorts netstatLine = [2873] ∧
    unixParseListeningPorts localhostLine = [7777] ∧
    windowsParseListeningPorts winNetstatLine = [2873] ∧
    windowsParseListeningPorts mixedLsofA = [] := by decide

/-! Helper lemmas about the process-info parsers. -/

theorem allWs_of_jsTrim_eq_nil : ∀ l : List Char, jsTrim l = [] → ∀ c ∈ l, isJsWs c = true := by
  intro l
  induction l with
  | nil => intro _ c hc; simp at hc
  | cons a as ih =>
    intro h c hc
    by_cases ha : isJsWs a
    · have he : jsTrim (a :: as) = jsTrim as := by
        unfold jsTrim
        rw [List.dropWhile_cons]
        simp [ha]
      rw [he] at h
      rcases List.mem_cons.mp hc with rfl | hc2
      · exact ha
      · exact ih h c hc2
    · exfalso
      have h' : ((a :: as).reverse.dropWhile isJsWs).reverse = [] := by
        unfold jsTrim at h
        rw [List.dropWhile_cons] at h
        simpa [ha] using h
      have h2 : (a :: as).reverse.dropWhile isJsWs = [] := by simpa using h'
      have h4 := List.dropWhile_eq_nil_iff.mp h2
      exact ha (h4 a (by simp))

theorem matchProcessId_eq_none_of_allWs :
    ∀ l : List Char, (∀ c ∈ l, isJsWs c = true) → matchProcessId l = none := by
  intro l
  induction l with
  | nil => intro _; rfl
  | cons c cs ih =>
    intro h
    have hc : isJsWs c = true := h c (by simp)
    have hcP : ¬ (c = 'P') := by
      intro he
      rw [he] at hc
      exact absurd hc (by decide)
    have hHere : matchProcessIdHere (c :: cs) = none := by
      unfold matchProcessIdHere
      have hd : ("ProcessId=".data) = 'P' :: ("rocessId=".data) := rfl
      rw [hd]
      simp [dropLit, hcP]
    have hrec : matchProcessId (c :: cs) = matchProcessId cs := by
      simp [matchProcessId, scanFirst, hHere]
    rw [hrec]
    exact ih (fun x hx => h x (by simp [hx]))

theorem unixParse_none_of_blank {s : String} (h : jsTrim s.data = []) :
    unixParseProcessInfo s = none := by
  simp [unixParseProcessInfo, h]

theorem windowsParse_none_of_pid {s : String} (h : matchProcessId s.data = none) :
    windowsParseProcessInfo s = none := by
  simp [windowsParseProcessInfo, h]

theorem windowsParse_none_of_blank {s : String} (h : jsTrim s.data = []) :
    windowsParseProcessInfo s = none :=
  windowsParse_none_of_pid (matchProcessId_eq_none_of_allWs _ (allWs_of_jsTrim_eq_nil _ h))

theorem unixParse_none_of_pid {s : String} (h : unixPid s.data = none) :
    unixParseProcessInfo s = none := by
  by_cases ht : jsTrim s.data = []
  · exact unixParse_none_of_blank ht
  · simp [unixParseProcessInfo, ht, h]

theorem unixParse_none_of_token {s : String} (h : matchCsrfToken s.data = none) :
    unixParseProcessInfo s = none := by
  by_cases ht : jsTrim s.data = []
  · exact unixParse_none_of_blank ht
  · cases hp : unixPid s.data with
    | none => exact unixParse_none_of_pid hp
    | some pid => simp [unixParseProcessInfo, ht, hp, h]

theorem windowsParse_none_of_token {s : String} (h : matchCsrfToken s.data = none) :
    windowsParseProcessInfo s = none := by
  cases hp : matchProcessId s.data with
  | none => exact windowsParse_none_of_pid hp
  | some pid => simp [windowsParseProcessInfo, hp, h]

theorem unixParse_some_elim {s : String} {r : ProcessInfo}
    (h : unixParseProcessInfo s = some r) :
    unixPid s.data = some r.pid ∧ r.extensionPort = (matchExtPort s.data).getD 0 := by
  by_cases ht : jsTrim s.data = []
  · simp [unixParseProcessInfo, ht] at h
  · cases hp : unixPid s.data with
    | none => simp [unixParseProcessInfo, ht, hp] at h
    | some pid =>
      cases htok : matchCsrfToken s.data with
      | none => simp [unixParseProcessInfo, ht, hp, htok] at h
      | some tok =>
        simp [unixParseProcessInfo, ht, hp, htok] at h
        subst h
        exact ⟨rfl, rfl⟩

theorem unixPid_shape : ∀ (l : List Char) (pid : Int), unixPid l = some pid →
    ∃ firstLine rest c0 c1 cols,
      splitOnNl (jsTrim l) = firstLine :: rest ∧
      jsSplitWs (jsTrim firstLine) = c0 :: c1 :: cols ∧
      jsParseInt c1 = some pid := by
  intro l pid h
  unfold unixPid at h
  split at h
  · simp at h
  · rename_i firstLine rest heq
    split at h
    · rename_i c0 c1 cols heq2
      exact ⟨firstLine, rest, c0, c1, cols, heq, heq2, h⟩
    · simp at h

/-- The process listing line of the spec example, parsed by C7. -/
def exPsLine : String :=
  "user 4412 0.0 0.1 ... /opt/x/language_server_linux --extension_server_port=2873 --csrf_token=ab12cd34-ef56"

/-- A line with a pid and a token but no port flag, exercising the default. -/
def exTokenOnlyLine : String := "x 9 --csrf_token=ab"

/-- Claim C5: both parseProcessInfo variants return absent on blank input,
and more generally whenever no pid can be parsed or no token is found. -/
theorem c5_parseProcessInfo_absent_cases (s t u v : String)
    (hs : jsTrim s.data = [])
    (ht : matchCsrfToken t.data = none)
    (hu : unixPid u.data = none)
    (hv : matchProcessId v.data = none) :
    (unixParseProcessInfo s = none ∧ windowsParseProcessInfo s = none) ∧
    (unixParseProcessInfo t = none ∧ windowsParseProcessInfo t = none) ∧
    unixParseProcessInfo u = none ∧
    windowsParseProcessInfo v = none :=
  ⟨⟨unixParse_none_of_blank hs, windowsParse_none_of_blank hs⟩,
   ⟨unixParse_none_of_token ht, windowsParse_none_of_token ht⟩,
   unixParse_none_of_pid hu, windowsParse_none_of_pid hv⟩

/-- Witness for C5: whitespace-only input, token-less input, input with a
single column, input without a ProcessId field. -/
theorem c5_parseProcessInfo_absent_cases_witness :
    (unixParseProcessInfo "  \n\t " = none ∧ windowsParseProcessInfo "  \n\t " = none) ∧
    (unixParseProcessInfo "user 12 --extension_server_port=5" = none ∧
      windowsParseProcessInfo "user 12 --extension_server_port=5" = none) ∧
    unixParseProcessInfo "onecolumn" = none ∧
    windowsParseProcessInfo "CommandLine=a --csrf_token=ff" = none :=
  c5_parseProcessInfo_absent_cases "  \n\t " "user 12 --extension_server_port=5"
    "onecolumn" "CommandLine=a --csrf_token=ff" (by decide) (by decide) (by decide) (by decide)

/-- Claim C6: the unix variant returns absent whenever the token regex does
not match, and the windows variant returns absent whenever the ProcessId
regex does not match. -/
theorem c6_missing_token_or_pid_absent (s t : String)
    (hs : matchCsrfToken s.data = none)
    (ht : matchProcessId t.data = none) :
    unixParseProcessInfo s = none ∧ windowsParseProcessInfo t = none :=
  ⟨unixParse_none_of_token hs, windowsParse_none_of_pid ht⟩

/-- Witness for C6: a token-less unix line carrying a pid and a port, and a
windows output carrying a token but no ProcessId field. -/
theorem c6_missing_token_or_pid_absent_witness :
    unixParseProcessInfo
        "user 4412 0.0 0.1 /opt/x/language_server_linux --extension_server_port=2873" = none ∧
    windowsParseProcessInfo "CommandLine=srv --csrf_token=ab12" = none :=
  c6_missing_token_or_pid_absent
    "user 4412 0.0 0.1 /opt/x/language_server_linux --extension_server_port=2873"
    "CommandLine=srv --csrf_token=ab12" (by decide) (by decide)

/-- Claim C7: the unix variant parses the spec example line to pid 4412,
declared port 2873 and the given token; the declared port defaults to 0
when the port flag is absent; and a successful parse always takes its pid
from the second whitespace-separated column of the first line. -/
theorem c7_unix_parse_example_and_defaults (s : String) (r : ProcessInfo)
    (hnoport : matchExtPort s.data = none)
    (hparse : unixParseProcessInfo s = some r) :
    unixParseProcessInfo exPsLine = some ⟨4412, 2873, "ab12cd34-ef56"⟩ ∧
    r.extensionPort = 0 ∧
    (∀ (u : String) (info : ProcessInfo), unixParseProcessInfo u = some info →
      ∃ firstLine rest c0 c1 cols,
        splitOnNl (jsTrim u.data) = firstLine :: rest ∧
        jsSplitWs (jsTrim firstLine) = c0 :: c1 :: cols ∧
        jsParseInt c1 = some info.pid) := by
  refine ⟨by decide, ?_, ?_⟩
  · have hport := (unixParse_some_elim hparse).2
    rw [hport, hnoport]
    rfl
  · intro u info hu
    exact unixPid_shape u.data info.pid (unixParse_some_elim hu).1

/-- Witness for C7 at a port-less line parsing to pid 9, port 0. -/
theorem c7_unix_parse_example_and_defaults_witness :
    unixParseProcessInfo exPsLine = some ⟨4412, 2873, "ab12cd34-ef56"⟩ ∧
    (⟨9, 0, "ab"⟩ : ProcessInfo).extensionPort = 0 ∧
    (∀ (u : String) (info : ProcessInfo), unixParseProcessInfo u = some info →
      ∃ firstLine rest c0 c1 cols,
        splitOnNl (jsTrim u.data) = firstLine :: rest ∧
        jsSplitWs (jsTrim firstLine) = c0 :: c1 :: cols ∧
        jsParseInt c1 = some info.pid) :=
  c7_unix_parse_example_and_defaults exTokenOnlyLine ⟨9, 0, "ab"⟩ (by decide) (by decide)

/-- A two-line process listing: pid on the first line, flags on the second. -/
def twoLineOut : String :=
  "user 4412 0.0 0.1\n/opt/x/language_server_linux --extension_server_port=2873 --csrf_token=deadbeef-1234"

/-- Claim C10: the unix variant matches the token and port regexes against
the whole raw output, not only the first line: with the token and port only
on the second line it still returns the combined record, even though the
first line alone matches neither regex. -/
theorem c10_unix_token_beyond_first_line :
    unixParseProcessInfo twoLineOut = some ⟨4412, 2873, "deadbeef-1234"⟩ ∧
    matchCsrfToken ("user 4412 0.0 0.1".data) = none ∧
    matchExtPort ("user 4412 0.0 0.1".data) = none := by decide
